import Mathlib

/-!
Shallow embedding of the `anchor_vault` Solana/Anchor program
(src/programs/anchor-vault/src/lib.rs).

The program keeps, per owner, two program-derived accounts:
  * a record account ("vault_state", seeds = [b"state", owner], storing a
    single u8 `bump`), created by `initialize` and destroyed by `close`;
  * a bare vault account (seeds = [b"vault", owner]) holding lamports.

We model the per-owner on-chain state as a `Chain` (signer lamports, vault
lamports, optional record), each instruction as a function
`Chain -> Except TxError Chain`, and the runtime's program-derived-address
search (`find_program_address`: bump searched downward from 255 until the
candidate is off-curve) as `derive`, parametric in the candidate-hash and
on-curve oracle since the hash itself is external to the program.

A transaction that returns `.error` leaves the chain untouched (the Solana
runtime rolls back every effect of a failed transaction); `applyTx` makes
that rollback explicit.
-/

namespace AnchorVault

/-- The seed tag b"vault" of the vault account, as bytes. -/
def vaultTag : List Nat := [118, 97, 117, 108, 116]

/-- The seed tag b"state" of the record (vault_state) account, as bytes. -/
def stateTag : List Nat := [115, 116, 97, 116, 101]

/-- One downward step of the bump search of `find_program_address`:
fuel `n + 1` tries bump `n`; `cand tag owner b` is the candidate address
produced by the runtime's hash for seeds `[tag, owner, b]`, and `curve a`
tells whether address `a` lies on the ed25519 curve (on-curve candidates
are rejected and the search continues downward). -/
def findBump (cand : List Nat → Nat → Nat → Nat) (curve : Nat → Bool)
    (tag : List Nat) (owner : Nat) : Nat → Option (Nat × Nat)
  | 0 => none
  | n + 1 =>
      if curve (cand tag owner n) then findBump cand curve tag owner n
      else some (cand tag owner n, n)

/-- The runtime's `find_program_address`: search bumps downward from 255
for the first candidate address that is not on the curve, returning the
address together with the bump that produced it. -/
def derive (cand : List Nat → Nat → Nat → Nat) (curve : Nat → Bool)
    (tag : List Nat) (owner : Nat) : Option (Nat × Nat) :=
  findBump cand curve tag owner 256

/-- The record account (`VaultState`): its on-chain address, the stored
`bump : u8`, and the lamports it holds (its rent-exemption storage deposit,
refunded to the signer when the account is closed). -/
structure Record where
  addr : Nat
  bump : Nat
  lamports : Nat
  deriving DecidableEq, Repr

/-- Per-owner on-chain state: lamport balance of the signer (the owner),
lamport balance of the vault account, and the record account if it is
live (`none` once closed / before initialization). -/
structure Chain where
  signerLam : Nat
  vaultLam : Nat
  record : Option Record
  deriving DecidableEq, Repr

/-- Static per-owner data resolved by the Anchor account-validation phase:
the canonical derived address and bump of the record account (seeds
[b"state", owner]) and of the vault account (seeds [b"vault", owner]),
together with the rent-exempt floor `Rent::minimum_balance(0)` used by
`deposit`, and the storage deposit `recordRent` paid when `initialize`
creates the record account. -/
structure Env where
  stateAddr : Nat
  stateBump : Nat
  vaultAddr : Nat
  vaultBump : Nat
  rentFloor : Nat
  recordRent : Nat
  deriving DecidableEq, Repr

/-- Build the environment of an owner from the derivation function:
both program-derived addresses must be found by the downward bump search. -/
def mkEnv (cand : List Nat → Nat → Nat → Nat) (curve : Nat → Bool)
    (owner rentFloor recordRent : Nat) : Option Env :=
  match derive cand curve stateTag owner, derive cand curve vaultTag owner with
  | some (sa, sb), some (va, vb) =>
      some ⟨sa, sb, va, vb, rentFloor, recordRent⟩
  | _, _ => none

/-- Errors of the program (`VaultError` in lib.rs). -/
inductive VaultError
  | VaultAlreadyExists
  | InvalidAmount
  | InsufficientAmount
  deriving DecidableEq, Repr

/-- Result of a transaction: either a program error (`VaultError`), or one
of the host-level rejections — the system program refusing to create an
already existing account (duplicate initialization), an Anchor seeds/bump
constraint failure (authorization mismatch), a missing record account
where `Account<VaultState>` is required, or a lamport transfer from an
account with insufficient funds. -/
inductive TxError
  | program (e : VaultError)
  | duplicateInitialization
  | authorizationMismatch
  | accountNotInitialized
  | transferFailed
  deriving DecidableEq, Repr

/-- The system program's lamport transfer: move `amount` from `src` to
`dst`, failing when `src` holds fewer than `amount` lamports.
Returns the two new balances `(src, dst)`. -/
def transferL (src dst amount : Nat) : Except TxError (Nat × Nat) :=
  if amount ≤ src then .ok (src - amount, dst + amount) else .error .transferFailed

/-- Anchor account validation shared by `VaultAction` and `Close`: the
`vault_state` account must exist (deserialize as `Account<VaultState>`),
and the constraint `bump = vault_state.bump` must hold — the stored bump
must re-derive the record account's canonical address, i.e. equal the
canonical bump of the [b"state", owner] derivation. -/
def validateRecord (env : Env) (st : Chain) : Except TxError Record :=
  match st.record with
  | none => .error .accountNotInitialized
  | some r =>
      if r.bump = env.stateBump then .ok r else .error .authorizationMismatch

/-- The `initialize` instruction: Anchor's `init` constraint asks the
system program to create the record account at its canonical derived
address (failing if it already exists), funded with its storage deposit
by the signer, and the handler stores `ctx.bumps.vault_state` — the
canonical bump of the [b"state", owner] derivation — into it. -/
def initializeRecord (env : Env) (st : Chain) : Except TxError Chain :=
  match st.record with
  | some _ => .error .duplicateInitialization
  | none =>
      if env.recordRent ≤ st.signerLam then
        .ok { signerLam := st.signerLam - env.recordRent,
              vaultLam := st.vaultLam,
              record := some ⟨env.stateAddr, env.stateBump, env.recordRent⟩ }
      else .error .transferFailed

/-- The `deposit` instruction: after account validation, require the vault
to be empty (`VaultAlreadyExists` otherwise), require
`amount > Rent::minimum_balance(0)` (`InvalidAmount` otherwise), then
transfer `amount` from the signer to the vault, signed by the signer. -/
def deposit (env : Env) (st : Chain) (amount : Nat) : Except TxError Chain :=
  match validateRecord env st with
  | .error e => .error e
  | .ok _ =>
      if st.vaultLam = 0 then
        if env.rentFloor < amount then
          match transferL st.signerLam st.vaultLam amount with
          | .error e => .error e
          | .ok (s, v) => .ok { st with signerLam := s, vaultLam := v }
        else .error (.program .InvalidAmount)
      else .error (.program .VaultAlreadyExists)

/-- The `withdraw` instruction: after account validation, require
`vault.lamports >= amount` (`InsufficientAmount` otherwise), then transfer
`amount` from the vault to the signer, authorized by the vault's signer
seeds [b"vault", owner, bump]. -/
def withdraw (env : Env) (st : Chain) (amount : Nat) : Except TxError Chain :=
  match validateRecord env st with
  | .error e => .error e
  | .ok _ =>
      if st.vaultLam < amount then .error (.program .InsufficientAmount)
      else
        match transferL st.vaultLam st.signerLam amount with
        | .error e => .error e
        | .ok (v, s) => .ok { st with signerLam := s, vaultLam := v }

/-- The sweep inside the `close` handler: if the vault holds any lamports,
transfer its whole balance to the signer using the vault's signer seeds;
an empty vault is left untouched. -/
def sweep (st : Chain) : Except TxError Chain :=
  if 0 < st.vaultLam then
    match transferL st.vaultLam st.signerLam st.vaultLam with
    | .error e => .error e
    | .ok (v, s) => .ok { st with signerLam := s, vaultLam := v }
  else .ok st

/-- The `close` instruction: after account validation (the `Close`
accounts carry the same seeds/bump constraints as `VaultAction`), the
handler sweeps the vault if nonempty; then Anchor's `close = signer`
constraint destroys the record account, refunding its lamports (the
storage deposit) to the signer. -/
def close (env : Env) (st : Chain) : Except TxError Chain :=
  match validateRecord env st with
  | .error e => .error e
  | .ok r =>
      match sweep st with
      | .error e => .error e
      | .ok st1 =>
          .ok { st1 with signerLam := st1.signerLam + r.lamports, record := none }

/-- The state a transaction leaves behind: its result on success, the
unchanged pre-state on failure (the runtime rolls a failed transaction
back atomically). -/
def applyTx (st : Chain) : Except TxError Chain → Chain
  | .ok s => s
  | .error _ => st

/-! Helper lemmas shared by the claim theorems. -/

lemma validateRecord_ok (env : Env) (st : Chain) (r : Record)
    (hr : st.record = some r) (hb : r.bump = env.stateBump) :
    validateRecord env st = .ok r := by
  simp [validateRecord, hr, hb]

lemma deposit_ok_record (env : Env) (st : Chain) (a : Nat) (st' : Chain)
    (h : deposit env st a = .ok st') : st'.record = st.record := by
  unfold deposit at h
  split at h
  · simp at h
  · split at h
    · split at h
      · split at h
        · simp at h
        · injection h with h
          subst h
          rfl
      · simp at h
    · simp at h

lemma withdraw_ok_record (env : Env) (st : Chain) (a : Nat) (st' : Chain)
    (h : withdraw env st a = .ok st') : st'.record = st.record := by
  unfold withdraw at h
  split at h
  · simp at h
  · split at h
    · simp at h
    · split at h
      · simp at h
      · injection h with h
        subst h
        rfl

/-! Concrete fixtures used by the witness theorems. -/

/-- A concrete live record: derived address 0, stored bump 5, storage
deposit 3 lamports. -/
def rW : Record := ⟨0, 5, 3⟩

/-- A concrete environment: record account derived at (0, bump 5), vault
account at (1, bump 7), rent-exempt floor 2, record storage deposit 3. -/
def envW : Env := ⟨0, 5, 1, 7, 2, 3⟩

/-- A concrete chain state: signer holds 10 lamports, vault holds 8, the
record `rW` is live. -/
def stW : Chain := ⟨10, 8, some rW⟩

/-! The claims. -/

/-- Claim C1: for every owner whose vault holds balance `b`, withdrawing
`w ≤ b` succeeds, leaving the vault at `b - w` and the owner richer by
`w`; withdrawing `w > b` fails with `InsufficientAmount` and leaves every
balance unchanged. -/
theorem withdraw_correct (env : Env) (st : Chain) (r : Record) (w : Nat)
    (hr : st.record = some r) (hb : r.bump = env.stateBump) :
    (w ≤ st.vaultLam →
      withdraw env st w =
        .ok { st with signerLam := st.signerLam + w, vaultLam := st.vaultLam - w }) ∧
    (st.vaultLam < w →
      withdraw env st w = .error (.program .InsufficientAmount) ∧
      applyTx st (withdraw env st w) = st) := by
  have hv := validateRecord_ok env st r hr hb
  constructor
  · intro hw
    simp [withdraw, hv, transferL, Nat.not_lt.mpr hw, hw]
  · intro hw
    simp [withdraw, hv, hw, applyTx]

/-- Witness for C1 at a concrete state: vault holds 8; withdrawing 3
succeeds with the expected balances, withdrawing 9 fails. -/
theorem withdraw_correct_witness :
    withdraw envW stW 3 = .ok { signerLam := 13, vaultLam := 5, record := some rW } ∧
    withdraw envW stW 9 = .error (.program .InsufficientAmount) :=
  ⟨(withdraw_correct envW stW rW 3 rfl rfl).1 (by decide),
   ((withdraw_correct envW stW rW 9 rfl rfl).2 (by decide)).1⟩

/-- Claim C2: close on a vault with balance `b > 0` sweeps all of `b` to
the owner and then destroys the record account, refunding its storage
deposit; a zero-balance vault is left untouched and only the record is
destroyed; after any successful close the vault balance is 0 and the
record no longer exists. -/
theorem close_correct (env : Env) (st : Chain) (r : Record)
    (hr : st.record = some r) (hb : r.bump = env.stateBump) :
    close env st =
      .ok { signerLam := st.signerLam + st.vaultLam + r.lamports,
            vaultLam := 0, record := none } ∧
    (st.vaultLam = 0 →
      close env st = .ok { st with signerLam := st.signerLam + r.lamports,
                                   record := none }) := by
  have hv := validateRecord_ok env st r hr hb
  by_cases h : 0 < st.vaultLam
  · refine ⟨?_, ?_⟩
    · simp [close, hv, sweep, h, transferL]
    · intro h0
      omega
  · have h0 : st.vaultLam = 0 := by omega
    refine ⟨?_, ?_⟩
    · simp [close, hv, sweep, h, h0]
    · intro _
      simp [close, hv, sweep, h]

/-- Witness for C2 at a concrete state: vault holds 8, record deposit 3;
close pays the owner 8 + 3 = 11 on top of their 10 and removes the
record. -/
theorem close_correct_witness :
    close envW stW = .ok { signerLam := 21, vaultLam := 0, record := none } :=
  (close_correct envW stW rW rfl rfl).1

/-- Claim C3: depositing `a > rentFloor` into an empty vault (by an owner
who can fund it) succeeds, the vault ends holding exactly `a`, and the
owner's balance drops by exactly `a`. -/
theorem deposit_success (env : Env) (st : Chain) (r : Record) (a : Nat)
    (hr : st.record = some r) (hb : r.bump = env.stateBump)
    (hv0 : st.vaultLam = 0) (ha : env.rentFloor < a) (hf : a ≤ st.signerLam) :
    deposit env st a =
      .ok { signerLam := st.signerLam - a, vaultLam := a, record := st.record } := by
  have hv := validateRecord_ok env st r hr hb
  simp [deposit, hv, hv0, ha, transferL, hf]

/-- A concrete chain state with an empty vault: signer holds 10 lamports,
vault holds 0, the record `rW` is live. -/
def stEmpty : Chain := ⟨10, 0, some rW⟩

/-- Witness for C3: depositing 4 (above the floor 2) into the empty vault
moves the signer from 10 to 6 lamports and the vault from 0 to 4. -/
theorem deposit_success_witness :
    deposit envW stEmpty 4 = .ok { signerLam := 6, vaultLam := 4, record := some rW } :=
  deposit_success envW stEmpty rW 4 rfl rfl rfl (by decide) (by decide)

/-- Claim C4: a deposit against a vault whose balance is nonzero fails
with `VaultAlreadyExists` and changes no balance; a deposit can only
produce a new state when the vault balance is exactly zero. -/
theorem deposit_existing_vault (env : Env) (st : Chain) (r : Record) (a : Nat)
    (hr : st.record = some r) (hb : r.bump = env.stateBump) :
    (st.vaultLam ≠ 0 →
      deposit env st a = .error (.program .VaultAlreadyExists) ∧
      applyTx st (deposit env st a) = st) ∧
    (∀ st', deposit env st a = .ok st' → st.vaultLam = 0) := by
  have hv := validateRecord_ok env st r hr hb
  constructor
  · intro h0
    constructor <;> simp [deposit, hv, h0, applyTx]
  · intro st' h
    by_contra h0
    simp [deposit, hv, h0] at h

/-- Witness for C4: the vault of `stW` holds 8 lamports, so a deposit of 5
is rejected with `VaultAlreadyExists`. -/
theorem deposit_existing_vault_witness :
    deposit envW stW 5 = .error (.program .VaultAlreadyExists) :=
  ((deposit_existing_vault envW stW rW 5 rfl rfl).1 (by decide)).1

/-- Claim C5: a deposit of an amount at most the rent-exempt floor fails
with `InvalidAmount` and leaves every balance unchanged; a deposit can
only go through when the amount strictly exceeds the floor. -/
theorem deposit_small_amount (env : Env) (st : Chain) (r : Record) (a : Nat)
    (hr : st.record = some r) (hb : r.bump = env.stateBump)
    (hv0 : st.vaultLam = 0) :
    (a ≤ env.rentFloor →
      deposit env st a = .error (.program .InvalidAmount) ∧
      applyTx st (deposit env st a) = st) ∧
    (∀ st', deposit env st a = .ok st' → env.rentFloor < a) := by
  have hv := validateRecord_ok env st r hr hb
  constructor
  · intro ha
    have ha' : ¬ env.rentFloor < a := by omega
    constructor <;> simp [deposit, hv, hv0, ha', applyTx]
  · intro st' h
    by_contra ha'
    simp [deposit, hv, hv0, ha'] at h

/-- Witness for C5: with rent floor 2, depositing 2 into the empty vault
is rejected with `InvalidAmount`. -/
theorem deposit_small_amount_witness :
    deposit envW stEmpty 2 = .error (.program .InvalidAmount) :=
  ((deposit_small_amount envW stEmpty rW 2 rfl rfl rfl).1 (by decide)).1

/-- Claim C6: a second `initialize` while the record account is still live
fails with the duplicate-initialization rejection, and the failed call
leaves the record — and so its stored bump — exactly as it was. -/
theorem initialize_duplicate (env : Env) (st : Chain) (r : Record)
    (hr : st.record = some r) :
    initializeRecord env st = .error .duplicateInitialization ∧
    (applyTx st (initializeRecord env st)).record = some r := by
  constructor <;> simp [initializeRecord, hr, applyTx]

/-- Witness for C6: initializing over the live record of `stW` fails with
the duplicate-initialization rejection. -/
theorem initialize_duplicate_witness :
    initializeRecord envW stW = .error .duplicateInitialization :=
  (initialize_duplicate envW stW rW rfl).1

/-- Claim C8: a close can only succeed when a live record exists whose
stored bump equals the canonical bump of the record derivation; when the
stored bump mismatches, the call is rejected as an authorization mismatch
and the state is unchanged. -/
theorem close_requires_matching_record (env : Env) (st : Chain) :
    (∀ st', close env st = .ok st' →
      ∃ r, st.record = some r ∧ r.bump = env.stateBump) ∧
    (∀ r, st.record = some r → r.bump ≠ env.stateBump →
      close env st = .error .authorizationMismatch ∧
      applyTx st (close env st) = st) := by
  constructor
  · intro st' h
    cases hrec : st.record with
    | none =>
        have hv : validateRecord env st = .error .accountNotInitialized := by
          simp [validateRecord, hrec]
        simp [close, hv] at h
    | some r =>
        by_cases hbe : r.bump = env.stateBump
        · exact ⟨r, rfl, hbe⟩
        · have hv : validateRecord env st = .error .authorizationMismatch := by
            simp [validateRecord, hrec, hbe]
          simp [close, hv] at h
  · intro r hr hbe
    have hv : validateRecord env st = .error .authorizationMismatch := by
      simp [validateRecord, hr, hbe]
    constructor <;> simp [close, hv, applyTx]

/-- A record whose stored bump 6 differs from the canonical record bump 5
of `envW`. -/
def rBad : Record := ⟨0, 6, 3⟩

/-- A chain state carrying the mismatching record `rBad`. -/
def stBad : Chain := ⟨10, 8, some rBad⟩

/-- Witness for C8: closing with the stored bump 6 against canonical bump
5 is rejected as an authorization mismatch. -/
theorem close_requires_matching_record_witness :
    close envW stBad = .error .authorizationMismatch :=
  ((close_requires_matching_record envW stBad).2 rBad rfl (by decide)).1

lemma findBump_addr (cand : List Nat → Nat → Nat → Nat) (curve : Nat → Bool)
    (tag : List Nat) (owner : Nat) :
    ∀ n a b, findBump cand curve tag owner n = some (a, b) → a = cand tag owner b := by
  intro n
  induction n with
  | zero =>
      intro a b h
      simp [findBump] at h
  | succ n ih =>
      intro a b h
      rw [findBump] at h
      split at h
      · exact ih a b h
      · simp at h
        rw [← h.1, ← h.2]

lemma mkEnv_some (cand : List Nat → Nat → Nat → Nat) (curve : Nat → Bool)
    (owner rf rr : Nat) (env : Env) (h : mkEnv cand curve owner rf rr = some env) :
    derive cand curve stateTag owner = some (env.stateAddr, env.stateBump) ∧
    env.recordRent = rr := by
  unfold mkEnv at h
  split at h
  · injection h with h
    subst h
    constructor
    · assumption
    · rfl
  · simp at h

/-- Claim C7: a successful `initialize` creates the record account at the
address produced by the derivation for the record's own tag (b"state" +
owner), and stores in it exactly the bump of that same derivation. -/
theorem initialize_stores_state_bump
    (cand : List Nat → Nat → Nat → Nat) (curve : Nat → Bool)
    (owner rf rr : Nat) (env : Env) (st : Chain)
    (he : mkEnv cand curve owner rf rr = some env)
    (hn : st.record = none) (hf : rr ≤ st.signerLam) :
    ∃ a b, derive cand curve stateTag owner = some (a, b) ∧
      initializeRecord env st =
        .ok { signerLam := st.signerLam - rr, vaultLam := st.vaultLam,
              record := some ⟨a, b, rr⟩ } := by
  obtain ⟨hd, hrr⟩ := mkEnv_some cand curve owner rf rr env he
  subst hrr
  refine ⟨env.stateAddr, env.stateBump, hd, ?_⟩
  simp [initializeRecord, hn, hf]

/-- A candidate-address function for witnesses: the candidate is the bump
itself. -/
def cand0 : List Nat → Nat → Nat → Nat := fun _ _ b => b

/-- An on-curve oracle under which no candidate is on the curve, so the
bump search stops at 255 immediately. -/
def curve0 : Nat → Bool := fun _ => false

/-- The environment `mkEnv cand0 curve0 42 2 3` resolves to: both
derivations stop at (address 255, bump 255), rent floor 2, record
deposit 3. -/
def envD : Env := ⟨255, 255, 255, 255, 2, 3⟩

/-- A chain state before initialization: signer holds 10 lamports, vault
empty, no record. -/
def stNone : Chain := ⟨10, 0, none⟩

/-- Witness for C7: initializing owner 42 under `cand0`/`curve0` creates
the record at the derived address 255 with the derived bump 255, the
signer paying the 3-lamport deposit. -/
theorem initialize_stores_state_bump_witness :
    initializeRecord envD stNone =
      .ok { signerLam := 7, vaultLam := 0, record := some ⟨255, 255, 3⟩ } := by
  obtain ⟨a, b, hd, hi⟩ :=
    initialize_stores_state_bump cand0 curve0 42 2 3 envD stNone rfl rfl (by decide)
  have h255 : derive cand0 curve0 stateTag 42 = some ((255 : Nat), (255 : Nat)) := rfl
  rw [h255] at hd
  injection hd with hd
  injection hd with ha hb
  subst ha
  subst hb
  exact hi

/-- Claim C9: the derivation is deterministic — equal (tag, owner) inputs
give equal results — and, provided the candidate hash is collision-free,
two distinct owners never derive the same vault address for the vault
tag. -/
theorem derive_deterministic_and_injective
    (cand : List Nat → Nat → Nat → Nat) (curve : Nat → Bool)
    (hinj : ∀ t₁ o₁ b₁ t₂ o₂ b₂,
      cand t₁ o₁ b₁ = cand t₂ o₂ b₂ → t₁ = t₂ ∧ o₁ = o₂ ∧ b₁ = b₂) :
    (∀ tag owner, derive cand curve tag owner = derive cand curve tag owner) ∧
    (∀ o₁ o₂ p₁ p₂, o₁ ≠ o₂ →
      derive cand curve vaultTag o₁ = some p₁ →
      derive cand curve vaultTag o₂ = some p₂ → p₁.1 ≠ p₂.1) := by
  refine ⟨fun _ _ => rfl, ?_⟩
  intro o₁ o₂ p₁ p₂ ho h₁ h₂
  obtain ⟨a₁, b₁⟩ := p₁
  obtain ⟨a₂, b₂⟩ := p₂
  intro hne
  have e₁ := findBump_addr cand curve vaultTag o₁ 256 a₁ b₁ h₁
  have e₂ := findBump_addr cand curve vaultTag o₂ 256 a₂ b₂ h₂
  apply ho
  have hc : cand vaultTag o₁ b₁ = cand vaultTag o₂ b₂ := by
    rw [← e₁, ← e₂]
    exact hne
  exact (hinj vaultTag o₁ b₁ vaultTag o₂ b₂ hc).2.1

/-- A collision-free candidate hash for witnesses, built from the Cantor
pairing function and the injective encoding of byte lists. -/
def candInj : List Nat → Nat → Nat → Nat :=
  fun t o b => Nat.pair (Encodable.encode t) (Nat.pair o b)

lemma candInj_injective : ∀ t₁ o₁ b₁ t₂ o₂ b₂,
    candInj t₁ o₁ b₁ = candInj t₂ o₂ b₂ → t₁ = t₂ ∧ o₁ = o₂ ∧ b₁ = b₂ := by
  intro t₁ o₁ b₁ t₂ o₂ b₂ h
  unfold candInj at h
  rw [Nat.pair_eq_pair] at h
  obtain ⟨h1, h2⟩ := h
  rw [Nat.pair_eq_pair] at h2
  exact ⟨Encodable.encode_injective h1, h2.1, h2.2⟩

/-- Witness for C9: under the collision-free hash, the vault addresses
derived for owners 0 and 1 (both found at bump 255 since nothing is
on-curve) differ. -/
theorem derive_deterministic_and_injective_witness :
    (candInj vaultTag 0 255, 255).1 ≠ (candInj vaultTag 1 255, 255).1 :=
  (derive_deterministic_and_injective candInj curve0 candInj_injective).2
    0 1 (candInj vaultTag 0 255, 255) (candInj vaultTag 1 255, 255)
    (by decide) rfl rfl

/-- Claim C10: deposit and withdraw never touch the record account — the
state a call leaves behind (success or rolled-back failure) carries the
record, and in particular its stored bump, unchanged. -/
theorem deposit_withdraw_preserve_record (env : Env) (st : Chain) (a : Nat) :
    (applyTx st (deposit env st a)).record = st.record ∧
    (applyTx st (withdraw env st a)).record = st.record := by
  constructor
  · cases h : deposit env st a with
    | ok s => simpa [applyTx] using deposit_ok_record env st a s h
    | error e => simp [applyTx]
  · cases h : withdraw env st a with
    | ok s => simpa [applyTx] using withdraw_ok_record env st a s h
    | error e => simp [applyTx]

end AnchorVault
